import Mathlib

/-!
Verification development for the ISave_Backend video-downloader service
(`server.js`).  The repository contains two variants of the Express server
in one file: a "simple" variant (auto-detects the platform from the URL,
no cache) and a "cached" variant (explicit `platform` query parameter,
NodeCache response cache, rate limiter, `/ping` route).  Both variants are
embedded below as pure Lean functions over an `Extern` record that stands
for the external collaborators (the WHATWG URL parser, `ytdl-core` and
`instagram-url-direct`), which the repository treats as black boxes.
Time is measured in milliseconds, matching `Date.now()` / NodeCache
internals.
-/

namespace ISave

/-- JS `String.prototype.startsWith` over character lists:
`listStartsWith s pat` is true when `pat` is an initial segment of `s`. -/
def listStartsWith : List Char → List Char → Bool
  | _, [] => true
  | [], _ :: _ => false
  | c :: cs, p :: ps => c == p && listStartsWith cs ps

/-- Substring occurrence over character lists: `listIncl pat s` is true when
`pat` occurs contiguously somewhere in `s`. -/
def listIncl (pat : List Char) : List Char → Bool
  | [] => pat.isEmpty
  | c :: cs => listStartsWith (c :: cs) pat || listIncl pat cs

/-- JS `s.includes(pat)`: substring containment on strings. -/
def jsIncludes (s pat : String) : Bool := listIncl pat.toList s.toList

/-- JS `s.toLowerCase()` (ASCII-adequate model: hostnames are ASCII). -/
def jsToLower (s : String) : String := ⟨s.toList.map Char.toLower⟩

/-- Translation of `detectPlatform` (simple variant, server.js lines
166-181).  `parseHost` stands for `url => new URL(url).hostname`, the
runtime's WHATWG URL parser: `none` models the parse throwing, which the
source's try/catch turns into a `null` return. -/
def detectPlatform (parseHost : String → Option String) (url : String) :
    Option String :=
  match parseHost url with
  | some host =>
    let hostname := jsToLower host
    if jsIncludes hostname "youtube.com" || jsIncludes hostname "youtu.be" then
      some "youtube"
    else if jsIncludes hostname "instagram.com" then
      some "instagram"
    else
      none
  | none => none

/-- Value stored in the `download_url` field of a response.  The simple
variant stores `format.url` (a string); the cached variant's
`getYouTubeDownloadUrl` returns the readable stream produced by
`ytdl(url, {format, requestOptions})` (server.js line 578), which is a JS
object, not a string — `streamObj` records the format url the stream was
built from but is a distinct kind of value. -/
inductive DlVal where
  | urlStr (s : String)
  | streamObj (fmtUrl : String)
deriving Repr, DecidableEq

/-- JSON object shape of every body the service emits (VideoResponse,
ErrorResponse, root descriptor, 404 body).  Absent JS fields are `none`. -/
structure Body where
  success : Bool
  platform : Option String := none
  title : Option String := none
  thumbnail : Option String := none
  duration : Option String := none
  author : Option String := none
  download_url : Option DlVal := none
  type : Option String := none
  error : Option String := none
  message : Option String := none
  name : Option String := none
  version : Option String := none
  description : Option String := none
  endpoints : Option (List (String × String)) := none
deriving Repr, DecidableEq

/-- Response body payload: `res.json(obj)`, `res.send(text)`, or
`res.json(undefined)` (the simple variant's unreachable switch
fall-through), which sends an empty body. -/
inductive RespBody where
  | json (b : Body)
  | text (s : String)
  | empty
deriving Repr, DecidableEq

/-- An HTTP response as status code plus body. -/
structure HttpResp where
  status : Nat
  body : RespBody
deriving Repr, DecidableEq

/-- One entry of `info.formats` as used by the code (only `.url` is read
from the chosen format). -/
structure YtFormat where
  url : String
deriving Repr, DecidableEq

/-- The fields of `ytdl.getInfo`'s result that the code reads:
`videoDetails.title`, `videoDetails.thumbnails[i].url`,
`videoDetails.lengthSeconds`, `videoDetails.author.name`, `formats`. -/
structure YtInfo where
  title : String
  thumbnailUrls : List String
  lengthSeconds : String
  authorName : String
  formats : List YtFormat
deriving Repr, DecidableEq

/-- Result of `instagramGetUrl(url)`: the fields the code reads. -/
structure IgResult where
  url_list : List String
  type : String
deriving Repr, DecidableEq

/-- External collaborators (black boxes per the spec): the URL parser,
`ytdl.validateURL`, `ytdl.getInfo` (an `error` is a rejected promise
carrying the error message), `ytdl.chooseFormat` (an `error` is a thrown
`No such format found` error), and `instagramGetUrl`. -/
structure Extern where
  parseHost : String → Option String
  validateURL : String → Bool
  getInfo : String → Except String YtInfo
  chooseFormat : List YtFormat → Except String YtFormat
  igGet : String → Except String IgResult

/-- Message of the TypeError the JS runtime raises for
`info.videoDetails.thumbnails[0].url` when `thumbnails` is empty (the
runtime text quotes the property name; the quotes are elided here). -/
def undefinedUrlReadMsg : String :=
  "Cannot read properties of undefined (reading url)"

/-- Translation of `getYouTubeDownloadUrl` in the simple variant
(server.js lines 184-190): choose the highest videoandaudio format and
return its `url` string; a `chooseFormat` throw propagates to the route's
catch. -/
def simpleGetYouTubeDownloadUrl (ext : Extern) (info : YtInfo) :
    Except String DlVal :=
  match ext.chooseFormat info.formats with
  | .ok format => .ok (.urlStr format.url)
  | .error e => .error e

/-- Translation of `getYouTubeDownloadUrl` in the cached variant
(server.js lines 556-589): choose the format, then return the stream
`ytdl(url, {format, requestOptions})` — a stream object, not a URL
string.  Its own try/catch replaces any thrown error with the fixed
message `Unable to process YouTube video. Please try again later.`. -/
def cachedGetYouTubeDownloadUrl (ext : Extern) (info : YtInfo) :
    Except String DlVal :=
  match ext.chooseFormat info.formats with
  | .ok format => .ok (.streamObj format.url)
  | .error _ => .error "Unable to process YouTube video. Please try again later."

/-- Error body `{success: false, error: msg}` as serialized by the many
`res.status(s).json({success: false, error: ...})` sites. -/
def errJ (msg : String) : RespBody :=
  .json { success := false, error := some msg }

/-- The `videoInfo` object built on the YouTube success path (both
variants build the same fields; they differ only in the `download_url`
value passed in). -/
def ytVideoInfo (info : YtInfo) (thumb : String) (dl : DlVal) : Body :=
  { success := true
    platform := some "youtube"
    title := some info.title
    thumbnail := some thumb
    duration := some info.lengthSeconds
    author := some info.authorName
    download_url := some dl }

/-- The `videoInfo` object built on the Instagram success path. -/
def igVideoInfo (u : String) (ty : String) : Body :=
  { success := true
    platform := some "instagram"
    download_url := some (.urlStr u)
    type := some ty }

/-- Translation of the simple variant's `/api/video` handler (server.js
lines 96-163).  `urlQ` is the raw `url` query parameter (`none` when
absent); JS truthiness makes `""` behave like an absent parameter.  Any
error thrown/rejected inside the handler's `try` lands in its `catch`,
which answers 500 with the error's message. -/
def simpleApiVideo (ext : Extern) (urlQ : Option String) : HttpResp :=
  let url := urlQ.getD ""
  if url = "" then
    ⟨400, errJ "URL is required"⟩
  else
    match detectPlatform ext.parseHost url with
    | none =>
      ⟨400, errJ "Unsupported platform. Please provide a valid YouTube or Instagram URL"⟩
    | some platform =>
      if platform = "youtube" then
        if !(ext.validateURL url) then
          ⟨400, errJ "Invalid YouTube URL"⟩
        else
          match ext.getInfo url with
          | .error e => ⟨500, errJ e⟩
          | .ok info =>
            match info.thumbnailUrls with
            | [] => ⟨500, errJ undefinedUrlReadMsg⟩
            | thumb :: _ =>
              match simpleGetYouTubeDownloadUrl ext info with
              | .error e => ⟨500, errJ e⟩
              | .ok dl => ⟨200, .json (ytVideoInfo info thumb dl)⟩
      else if platform = "instagram" then
        match ext.igGet url with
        | .error e => ⟨500, errJ e⟩
        | .ok ig =>
          match ig.url_list with
          | [] => ⟨400, errJ "No downloadable URL found"⟩
          | u :: _ => ⟨200, .json (igVideoInfo u ig.type)⟩
      else
        ⟨200, .empty⟩

/-- NodeCache TTL in milliseconds: `stdTTL: 3600` seconds; NodeCache
stores the expiry as `Date.now() + ttl * 1000`. -/
def ttlMs : Nat := 3600 * 1000

/-- Rate-limiter window: `windowMs: 60 * 60 * 1000` (server.js 374). -/
def windowMs : Nat := 60 * 60 * 1000

/-- Rate-limiter cap: `max: 100` (server.js 375). -/
def rlMax : Nat := 100

/-- One cache slot: the stored `videoInfo` value plus its expiry time
(insertion time + TTL), as NodeCache keeps them. -/
structure CEntry where
  val : Body
  expiry : Nat
deriving Repr, DecidableEq

/-- The NodeCache store: newest binding first; `cache.set` prepends, and
lookups read the most recent binding for a key. -/
abbrev Cache := List (String × CEntry)

/-- NodeCache `cache.get(key)` at time `now`: the entry is served while
`now ≤ expiry` (NodeCache's check expires an entry only when its stamp is
strictly in the past), otherwise `undefined`. -/
def cacheGet (c : Cache) (k : String) (now : Nat) : Option Body :=
  match c.lookup k with
  | some e => if now ≤ e.expiry then some e.val else none
  | none => none

/-- NodeCache `cache.set(key, value)` at time `now` with the default TTL. -/
def cacheSet (c : Cache) (k : String) (v : Body) (now : Nat) : Cache :=
  (k, ⟨v, now + ttlMs⟩) :: c

/-- Outcome of one cached-variant `/api/video` handler run: the response,
the cache afterwards, and how many extraction-adapter invocations
(`ytdl.getInfo` / `instagramGetUrl`) the run performed. -/
structure VOut where
  status : Nat
  body : RespBody
  cache : Cache
  calls : Nat
deriving Repr, DecidableEq

/-- Translation of the cached variant's `/api/video` handler (server.js
lines 445-553).  Query parameters `urlQ`/`platformQ` are `none` when
absent; `""` is falsy like absence.  The cache is consulted before the
platform switch (`cacheKey = video_ + url`); each success path writes the
built `videoInfo` to the cache before responding; each extractor error is
caught by that branch's own catch and answered with HTTP 400. -/
def cachedApiVideo (ext : Extern) (cache : Cache) (now : Nat)
    (urlQ platformQ : Option String) : VOut :=
  let url := urlQ.getD ""
  let platform := platformQ.getD ""
  if url = "" ∨ platform = "" then
    ⟨400, errJ "URL and platform are required", cache, 0⟩
  else
    let cacheKey := "video_" ++ url
    match cacheGet cache cacheKey now with
    | some cachedData => ⟨200, .json cachedData, cache, 0⟩
    | none =>
      if platform = "youtube" then
        if !(ext.validateURL url) then
          ⟨400, errJ "Invalid YouTube URL", cache, 0⟩
        else
          match ext.getInfo url with
          | .error e =>
            ⟨400, errJ ("Unable to process YouTube video. " ++ e), cache, 1⟩
          | .ok info =>
            match info.thumbnailUrls with
            | [] =>
              ⟨400, errJ ("Unable to process YouTube video. " ++ undefinedUrlReadMsg), cache, 1⟩
            | thumb :: _ =>
              match cachedGetYouTubeDownloadUrl ext info with
              | .error e =>
                ⟨400, errJ ("Unable to process YouTube video. " ++ e), cache, 1⟩
              | .ok dl =>
                let videoInfo := ytVideoInfo info thumb dl
                ⟨200, .json videoInfo, cacheSet cache cacheKey videoInfo now, 1⟩
      else if platform = "instagram" then
        match ext.igGet url with
        | .error e =>
          ⟨400, errJ ("Unable to process Instagram video. " ++ e), cache, 1⟩
        | .ok ig =>
          match ig.url_list with
          | [] => ⟨400, errJ "No downloadable URL found", cache, 1⟩
          | u :: _ =>
            let videoInfo := igVideoInfo u ig.type
            ⟨200, .json videoInfo, cacheSet cache cacheKey videoInfo now, 1⟩
      else
        ⟨400, errJ "Unsupported platform", cache, 0⟩

/-- Translation of the cached variant's terminal error-handling middleware
(server.js lines 592-612): an error whose message contains the
age-verification signature is answered 403 with the fixed message; any
other error is answered 500 (message redacted in production mode). -/
def errorMiddleware (isProd : Bool) (errMsg : String) : HttpResp :=
  if jsIncludes errMsg "Sign in to confirm" then
    ⟨403, errJ "This video requires age verification. Please try another video."⟩
  else
    ⟨500, errJ (if isProd then "An unexpected error occurred" else errMsg)⟩

/-- The rate-limit denial body configured at server.js 376-379. -/
def rateLimitBody : RespBody :=
  errJ "Too many requests from this IP, please try again after an hour"

/-- The 404 body sent by both variants' catch-all handler. -/
def notFoundBody : RespBody :=
  .json { success := false, error := some "Not Found",
          message := some "The requested resource does not exist" }

/-- Modelled from the spec: the per-client-address state kept by the
`express-rate-limit` middleware (the library itself is not part of this
repository's sources).  Spec section 3: "per-client-address counter +
window start timestamp". -/
structure RlEntry where
  count : Nat
  windowStart : Nat
deriving Repr, DecidableEq

/-- Rate-limiter store: newest binding first, per client address. -/
abbrev RlState := List (String × RlEntry)

/-- Store update for one address (prepend; lookups read the newest). -/
def rlSet (rl : RlState) (addr : String) (e : RlEntry) : RlState :=
  (addr, e) :: rl

/-- Modelled from the spec: one hit of the `express-rate-limit` middleware
(configured at server.js 373-382 with `windowMs` one hour and `max` 100;
the library's semantics follow spec sections 3 and 4.4): within a live
window the address's counter is incremented and the request is allowed
exactly when the counter stays within the cap; an expired or absent
window starts afresh at the current time with count one. -/
def limiterHit (rl : RlState) (addr : String) (now : Nat) : Bool × RlState :=
  match rl.lookup addr with
  | some e =>
    if now < e.windowStart + windowMs then
      (decide (e.count + 1 ≤ rlMax), rlSet rl addr ⟨e.count + 1, e.windowStart⟩)
    else
      (true, rlSet rl addr ⟨1, now⟩)
  | none => (true, rlSet rl addr ⟨1, now⟩)

/-- An inbound request: route path, the two query parameters, and the
client address the rate limiter keys on. -/
structure Req where
  path : String
  url : Option String
  platform : Option String
  addr : String
deriving Repr, DecidableEq

/-- Mutable state of the cached-variant process: the response cache and
the rate-limiter store. -/
structure AppState where
  cache : Cache
  rl : RlState
deriving Repr, DecidableEq

/-- Security headers set by the cached variant's header middleware
(server.js 284-288), which runs before every route. -/
def cachedSecurityHeaders : List (String × String) :=
  [("X-Content-Type-Options", "nosniff"), ("X-XSS-Protection", "1; mode=block")]

/-- A full response as emitted on the wire: status, body, headers. -/
structure HttpOut where
  status : Nat
  body : RespBody
  headers : List (String × String)
deriving Repr, DecidableEq

/-- Root-route body of the cached variant (server.js 404-416). -/
def rootBodyCached : Body :=
  { success := true
    name := some "Video Downloader API"
    version := some "1.0.0"
    description := some "API for downloading videos from YouTube and Instagram"
    endpoints := some [("health", "/ping"), ("documentation", "/api-docs"),
                       ("video", "/api/video?url=VIDEO_URL")] }

/-- Root-route body of the simple variant (server.js 56-67). -/
def rootBodySimple : Body :=
  { success := true
    name := some "Video Downloader API"
    version := some "1.0.0"
    description := some "API for downloading videos from YouTube and Instagram"
    endpoints := some [("documentation", "/api-docs"),
                       ("video", "/api/video?url=VIDEO_URL")] }

/-- One request through the cached variant's app (middleware order of
server.js 244-622: compression and logging pass through, the security
header middleware stamps every response, then the routes; the rate
limiter guards only `/api/video`; unmatched paths fall to the 404
handler).  Returns the response, the new process state and the number of
extraction-adapter invocations. -/
def cachedApp (ext : Extern) (st : AppState) (now : Nat) (req : Req) :
    HttpOut × AppState × Nat :=
  let hs := cachedSecurityHeaders
  if req.path = "/ping" then
    (⟨200, .text "pong", hs⟩, st, 0)
  else if req.path = "/" then
    (⟨200, .json rootBodyCached, hs⟩, st, 0)
  else if req.path = "/api/video" then
    let hit := limiterHit st.rl req.addr now
    if hit.1 then
      let out := cachedApiVideo ext st.cache now req.url req.platform
      (⟨out.status, out.body, hs⟩, ⟨out.cache, hit.2⟩, out.calls)
    else
      (⟨429, rateLimitBody, hs⟩, ⟨st.cache, hit.2⟩, 0)
  else
    (⟨404, notFoundBody, hs⟩, st, 0)

/-- Fold a timed request trace through the cached variant's app, keeping
only the final state (responses are per-request, via `cachedApp`). -/
def runReqs (ext : Extern) : AppState → List (Nat × Req) → AppState
  | st, [] => st
  | st, (t, r) :: rest => runReqs ext (cachedApp ext st t r).2.1 rest

/-- Step result of one Express middleware: pass on (with possibly updated
response headers) or finish with a response. -/
inductive MwStep where
  | next (hs : List (String × String))
  | done (o : HttpOut)

/-- A (stateless) middleware: request and accumulated headers in, step
out. -/
abbrev Mw := Req → List (String × String) → MwStep

/-- Express dispatch: run the registered middlewares in order until one
responds; `none` if the stack is exhausted without a response. -/
def runMws : List Mw → Req → List (String × String) → Option HttpOut
  | [], _, _ => none
  | m :: ms, req, hs =>
    match m req hs with
    | .done o => some o
    | .next hs2 => runMws ms req hs2

/-- Simple variant's root route (server.js 56-67) as a middleware. -/
def rootMwS : Mw := fun req hs =>
  if req.path = "/" then .done ⟨200, .json rootBodySimple, hs⟩ else .next hs

/-- Simple variant's `/api/video` route (server.js 96-163) as a
middleware; `rlAllowed` is the verdict of the `limiter` middleware
attached to this route (its state evolution is modelled by
`limiterHit`). -/
def apiVideoMwS (ext : Extern) (rlAllowed : Bool) : Mw := fun req hs =>
  if req.path = "/api/video" then
    if rlAllowed then
      let r := simpleApiVideo ext req.url
      .done ⟨r.status, r.body, hs⟩
    else
      .done ⟨429, rateLimitBody, hs⟩
  else
    .next hs

/-- The catch-all 404 handler (server.js 203-209) as a middleware: it
answers every request that reaches it. -/
def notFoundMw : Mw := fun _ hs => .done ⟨404, notFoundBody, hs⟩

/-- The simple variant's security-header middleware (server.js 212-217):
adds the three headers and passes on. -/
def securityMwS : Mw := fun _ hs =>
  .next (hs ++ [("X-Content-Type-Options", "nosniff"),
                ("X-Frame-Options", "DENY"),
                ("X-XSS-Protection", "1; mode=block")])

/-- The simple variant's app: its middlewares in registration order
(server.js top to bottom) — root route, `/api/video` route, 404 catch-all,
and only THEN the security-header middleware.  CORS and the JSON body
parser add no response headers relevant here and pass through. -/
def simpleApp (ext : Extern) (rlAllowed : Bool) (req : Req) : Option HttpOut :=
  runMws [rootMwS, apiVideoMwS ext rlAllowed, notFoundMw, securityMwS] req []

/-- Spec section 4.1's YouTube matching condition, stated in the spec's
own words: the lowercased hostname contains `youtube.com` or `youtu.be`. -/
def ytHostMatch (host : String) : Bool :=
  jsIncludes (jsToLower host) "youtube.com" || jsIncludes (jsToLower host) "youtu.be"

/-- Spec section 4.1's Instagram matching condition: the lowercased
hostname contains `instagram.com`. -/
def igHostMatch (host : String) : Bool :=
  jsIncludes (jsToLower host) "instagram.com"

/-- Concrete URL-parser oracle used by witnesses: hostnames of a YouTube
URL, an Instagram URL and an unsupported-host URL; everything else fails
to parse. -/
def phEx : String → Option String := fun u =>
  if u = "https://www.youtube.com/watch?v=dQw4w9WgXcQ" then some "www.youtube.com"
  else if u = "https://www.instagram.com/p/abc/" then some "www.instagram.com"
  else if u = "https://example.com/x" then some "example.com"
  else none

/-- Concrete YouTube metadata used by witnesses. -/
def ytInfoEx : YtInfo :=
  { title := "Demo video"
    thumbnailUrls := ["https://img.example/thumb.jpg"]
    lengthSeconds := "212"
    authorName := "Demo author"
    formats := [⟨"https://video.example/dl.mp4"⟩] }

/-- Concrete external-collaborator oracle used by witnesses: the YouTube
URL validates, extraction succeeds with `ytInfoEx`, format selection
picks the head format, and Instagram resolution yields one video URL. -/
def extEx : Extern :=
  { parseHost := phEx
    validateURL := fun u => u = "https://www.youtube.com/watch?v=dQw4w9WgXcQ"
    getInfo := fun _ => .ok ytInfoEx
    chooseFormat := fun fs =>
      match fs with
      | [] => .error "No such format found"
      | f :: _ => .ok f
    igGet := fun _ => .ok ⟨["https://ig.example/media.mp4"], "video"⟩ }

/-- Oracle whose YouTube extraction rejects with an age-verification
message, as upstream does for age-gated videos. -/
def extAge : Extern :=
  { extEx with getInfo := fun _ => .error "Sign in to confirm your age" }

/-- Oracle whose YouTube URL validation rejects everything (as
`ytdl.validateURL` does on a non-YouTube URL). -/
def extNoYt : Extern :=
  { extEx with validateURL := fun _ => false }

/-- Concrete `/api/video` request used by witnesses: the Instagram URL
from one fixed client address. -/
def reqIg : Req :=
  ⟨"/api/video", some "https://www.instagram.com/p/abc/", some "instagram",
    "1.2.3.4"⟩

/-- One hundred further copies of `reqIg`, all at time 0 (inside the
window opened by the first request). -/
def trace100 : List (Nat × Req) := List.replicate 100 (0, reqIg)

/-- Process state after 101 `/api/video` requests from one address. -/
def st100 : AppState := runReqs extEx ⟨[], []⟩ ((0, reqIg) :: trace100)

/-- Claim C7: `detectPlatform` is a pure total function on strings (total
by construction here; the source's try/catch removes its only throw): it
returns `youtube` exactly when the input parses as a URL whose lowercased
hostname contains `youtube.com` or `youtu.be`, `instagram` exactly when
the hostname contains `instagram.com` and no YouTube match applies, and
`none` for every other string, including every string that fails to
parse as a URL. -/
theorem detectPlatform_characterization (ph : String → Option String)
    (url : String) :
    (detectPlatform ph url = some "youtube" ↔
      ∃ h, ph url = some h ∧ ytHostMatch h = true) ∧
    (detectPlatform ph url = some "instagram" ↔
      ∃ h, ph url = some h ∧ ytHostMatch h = false ∧ igHostMatch h = true) ∧
    (detectPlatform ph url = none ↔
      ph url = none ∨
        ∃ h, ph url = some h ∧ ytHostMatch h = false ∧ igHostMatch h = false) := by
  cases hph : ph url with
  | none => simp [detectPlatform, hph]
  | some host =>
    by_cases h1 : jsIncludes (jsToLower host) "youtube.com" = true <;>
    by_cases h2 : jsIncludes (jsToLower host) "youtu.be" = true <;>
    by_cases h3 : jsIncludes (jsToLower host) "instagram.com" = true <;>
    simp [detectPlatform, hph, ytHostMatch, igHostMatch, h1, h2, h3]

/-- Witness for C7 at the concrete YouTube URL of `phEx`. -/
theorem detectPlatform_characterization_witness :
    detectPlatform phEx "https://www.youtube.com/watch?v=dQw4w9WgXcQ" =
      some "youtube" :=
  (detectPlatform_characterization phEx
      "https://www.youtube.com/watch?v=dQw4w9WgXcQ").1.mpr
    ⟨"www.youtube.com", by decide, by decide⟩

/-- Claim C10: in the cached variant, for every url already present in
the cache (entry valid at request time) and every nonempty platform query
value — including values that are neither `youtube` nor `instagram` and
platforms that do not match the url's host — `/api/video` returns the
cached response with HTTP 200: the cache lookup precedes the platform
switch, so a cache hit bypasses the unsupported-platform and
invalid-YouTube-URL checks entirely (no extractor call, no cache
write, for arbitrary `ext`). -/
theorem cachedApiVideo_cache_hit_bypasses_platform (ext : Extern)
    (cache : Cache) (now : Nat) (url platform : String) (v : Body)
    (hurl : url ≠ "") (hp : platform ≠ "")
    (hhit : cacheGet cache ("video_" ++ url) now = some v) :
    cachedApiVideo ext cache now (some url) (some platform) =
      ⟨200, .json v, cache, 0⟩ := by
  simp [cachedApiVideo, hurl, hp, hhit]

/-- Witness for C10: a cached entry is served for platform `tiktok` and a
non-YouTube, non-Instagram url, under an oracle that validates nothing. -/
theorem cachedApiVideo_cache_hit_bypasses_platform_witness :
    cachedApiVideo extNoYt
      [("video_https://example.com/x",
        ⟨igVideoInfo "https://ig.example/media.mp4" "video", ttlMs⟩)] 0
      (some "https://example.com/x") (some "tiktok") =
      ⟨200, .json (igVideoInfo "https://ig.example/media.mp4" "video"),
        [("video_https://example.com/x",
          ⟨igVideoInfo "https://ig.example/media.mp4" "video", ttlMs⟩)], 0⟩ :=
  cachedApiVideo_cache_hit_bypasses_platform extNoYt _ 0 _ "tiktok" _
    (by decide) (by decide) (by decide)

/-- Claim C5: for every Instagram request to `/api/video` (auto-detected
instagram platform in the simple variant; explicit platform=instagram on
a cache miss in the cached variant), if the resolver's `url_list` is
empty the response is `success:false` with the `No downloadable URL
found` error and HTTP 400; otherwise the response is `success:true` with
`download_url` equal to the first element of `url_list` and `type` equal
to the resolver's type tag (which the cached variant also writes to the
cache). -/
theorem apiVideo_instagram_branch (ext : Extern) (cache : Cache) (now : Nat)
    (url : String) (r : IgResult)
    (hurl : url ≠ "") (hig : ext.igGet url = .ok r) :
    (detectPlatform ext.parseHost url = some "instagram" →
      simpleApiVideo ext (some url) =
        match r.url_list with
        | [] => ⟨400, errJ "No downloadable URL found"⟩
        | u :: _ => ⟨200, .json (igVideoInfo u r.type)⟩) ∧
    (cacheGet cache ("video_" ++ url) now = none →
      cachedApiVideo ext cache now (some url) (some "instagram") =
        match r.url_list with
        | [] => ⟨400, errJ "No downloadable URL found", cache, 1⟩
        | u :: _ => ⟨200, .json (igVideoInfo u r.type),
            cacheSet cache ("video_" ++ url) (igVideoInfo u r.type) now, 1⟩) := by
  constructor
  · intro hdet
    cases hl : r.url_list <;>
      simp [simpleApiVideo, hurl, hdet, hig, hl]
  · intro hmiss
    cases hl : r.url_list <;>
      simp [cachedApiVideo, hurl, hmiss, hig, hl]

/-- Witness for C5: the concrete Instagram URL resolves to one media URL
in both variants. -/
theorem apiVideo_instagram_branch_witness :
    simpleApiVideo extEx (some "https://www.instagram.com/p/abc/") =
      ⟨200, .json (igVideoInfo "https://ig.example/media.mp4" "video")⟩ ∧
    cachedApiVideo extEx [] 0 (some "https://www.instagram.com/p/abc/")
        (some "instagram") =
      ⟨200, .json (igVideoInfo "https://ig.example/media.mp4" "video"),
        cacheSet [] "video_https://www.instagram.com/p/abc/"
          (igVideoInfo "https://ig.example/media.mp4" "video") 0, 1⟩ := by
  have h := apiVideo_instagram_branch extEx [] 0
    "https://www.instagram.com/p/abc/"
    ⟨["https://ig.example/media.mp4"], "video"⟩ (by decide) (by rfl)
  exact ⟨by simpa using h.1 (by decide), by simpa using h.2 (by decide)⟩

/-- Counterexample to claim C6 as stated: with the platform supplied
explicitly as `youtube` and a url whose host (`example.com`) is neither a
YouTube nor an Instagram domain, the cached variant answers 400 `Invalid
YouTube URL` — `success:false` and 400, but not an `unsupported
platform` error, refuting the claim's "both when the platform query
parameter is supplied explicitly" clause. -/
theorem explicit_platform_mismatch_counterexample :
    detectPlatform extNoYt.parseHost "https://example.com/x" = none ∧
    cachedApiVideo extNoYt [] 0 (some "https://example.com/x")
        (some "youtube") =
      ⟨400, errJ "Invalid YouTube URL", [], 0⟩ ∧
    errJ "Invalid YouTube URL" ≠ errJ "Unsupported platform" ∧
    errJ "Invalid YouTube URL" ≠
      errJ "Unsupported platform. Please provide a valid YouTube or Instagram URL" := by
  decide

/-- Claim C6 (amended): for a url whose host is neither a YouTube nor an
Instagram domain, the auto-detect path (simple variant) answers 400 with
the unsupported-platform error; the cached (explicit-platform) variant
answers 400 `Unsupported platform` when the supplied platform value is
neither `youtube` nor `instagram` (on a cache miss) — but an explicit
`youtube`/`instagram` platform value instead dispatches to that
extractor's branch regardless of the url's host. -/
theorem apiVideo_unsupported_platform (ext : Extern) (cache : Cache)
    (now : Nat) (url platform : String)
    (hurl : url ≠ "")
    (hdet : detectPlatform ext.parseHost url = none) :
    simpleApiVideo ext (some url) =
      ⟨400, errJ "Unsupported platform. Please provide a valid YouTube or Instagram URL"⟩ ∧
    (platform ≠ "" → platform ≠ "youtube" → platform ≠ "instagram" →
      cacheGet cache ("video_" ++ url) now = none →
      cachedApiVideo ext cache now (some url) (some platform) =
        ⟨400, errJ "Unsupported platform", cache, 0⟩) := by
  constructor
  · simp [simpleApiVideo, hurl, hdet]
  · intro hp hpy hpi hmiss
    simp [cachedApiVideo, hurl, hp, hpy, hpi, hmiss]

/-- Witness for C6 (amended) at the unsupported host `example.com` with
explicit platform `tiktok`. -/
theorem apiVideo_unsupported_platform_witness :
    simpleApiVideo extEx (some "https://example.com/x") =
      ⟨400, errJ "Unsupported platform. Please provide a valid YouTube or Instagram URL"⟩ ∧
    cachedApiVideo extEx [] 0 (some "https://example.com/x") (some "tiktok") =
      ⟨400, errJ "Unsupported platform", [], 0⟩ := by
  have h := apiVideo_unsupported_platform extEx [] 0 "https://example.com/x"
    "tiktok" (by decide) (by decide)
  exact ⟨h.1, h.2 (by decide) (by decide) (by decide) (by decide)⟩

/-- Membership in a cache after a `cacheSet`: the new binding or an old
one. -/
theorem mem_cacheSet {cache : Cache} {k : String} {v : Body} {now : Nat}
    {p : String × CEntry} (hp : p ∈ cacheSet cache k v now) :
    p = (k, ⟨v, now + ttlMs⟩) ∨ p ∈ cache := by
  simpa [cacheSet] using hp

/-- Reading back the key just written: served while `t ≤ now + ttlMs`. -/
theorem cacheGet_cacheSet_self (cache : Cache) (k : String) (v : Body)
    (now t : Nat) :
    cacheGet (cacheSet cache k v now) k t =
      if t ≤ now + ttlMs then some v else none := by
  simp [cacheGet, cacheSet, List.lookup]

/-- A valid cache entry short-circuits the cached handler: the cached
body is served with HTTP 200, no extractor call, no state change. -/
theorem cachedApiVideo_hit_eval (ext : Extern) (cache : Cache) (now : Nat)
    (urlQ platformQ : Option String) (v : Body)
    (hu : urlQ.getD "" ≠ "") (hp : platformQ.getD "" ≠ "")
    (hhit : cacheGet cache ("video_" ++ urlQ.getD "") now = some v) :
    cachedApiVideo ext cache now urlQ platformQ = ⟨200, .json v, cache, 0⟩ := by
  simp [cachedApiVideo, hu, hp, hhit]

/-- A 200 from the cached handler implies both query parameters were
present and nonempty. -/
theorem params_nonempty_of_status200 {ext : Extern} {cache : Cache}
    {now : Nat} {urlQ platformQ : Option String}
    (h : (cachedApiVideo ext cache now urlQ platformQ).status = 200) :
    urlQ.getD "" ≠ "" ∧ platformQ.getD "" ≠ "" := by
  constructor <;> intro he <;> simp [cachedApiVideo, he] at h

/-- Exhaustive shape analysis of one cached-handler run: a cache hit
(served unchanged), a failure (HTTP 400, cache untouched), or a fresh
success (HTTP 200, one extractor call, the response body written under
`video_ + url`). -/
theorem cachedApiVideo_cases (ext : Extern) (cache : Cache) (now : Nat)
    (urlQ platformQ : Option String) :
    (∃ v, cacheGet cache ("video_" ++ urlQ.getD "") now = some v ∧
      cachedApiVideo ext cache now urlQ platformQ = ⟨200, .json v, cache, 0⟩) ∨
    ((cachedApiVideo ext cache now urlQ platformQ).status = 400 ∧
      (cachedApiVideo ext cache now urlQ platformQ).cache = cache) ∨
    (∃ v, v.success = true ∧
      cachedApiVideo ext cache now urlQ platformQ =
        ⟨200, .json v, cacheSet cache ("video_" ++ urlQ.getD "") v now, 1⟩) := by
  simp only [cachedApiVideo]
  repeat' split
  all_goals first
    | exact Or.inr (Or.inl ⟨rfl, rfl⟩)
    | exact Or.inr (Or.inr ⟨_, rfl, rfl⟩)
    | (rename_i v heq; exact Or.inl ⟨v, heq, rfl⟩)

/-- Claim C3: for every request to `/api/video` in the cached variant, a
cache entry is written only after the matching extractor succeeds — on
every other path (missing params, cache hit, unsupported platform,
invalid YouTube URL, empty Instagram URL list, extractor exception) the
cache is unchanged, and any write stores a success (`success:true`)
response; hence caches all of whose values are successes stay that way
under every request. -/
theorem cache_writes_only_success (ext : Extern) (cache : Cache) (now : Nat)
    (urlQ platformQ : Option String) :
    ((cachedApiVideo ext cache now urlQ platformQ).cache = cache ∨
      ∃ v : Body, v.success = true ∧
        (cachedApiVideo ext cache now urlQ platformQ).status = 200 ∧
        (cachedApiVideo ext cache now urlQ platformQ).body = .json v ∧
        (cachedApiVideo ext cache now urlQ platformQ).cache =
          cacheSet cache ("video_" ++ urlQ.getD "") v now) ∧
    ((∀ p ∈ cache, p.2.val.success = true) →
      ∀ p ∈ (cachedApiVideo ext cache now urlQ platformQ).cache,
        p.2.val.success = true) := by
  rcases cachedApiVideo_cases ext cache now urlQ platformQ with
    ⟨v, hv, heq⟩ | ⟨h400, hc⟩ | ⟨v, hs, heq⟩
  · rw [heq]
    exact ⟨Or.inl rfl, fun h => h⟩
  · exact ⟨Or.inl hc, fun h p hp => h p (hc ▸ hp)⟩
  · rw [heq]
    refine ⟨Or.inr ⟨v, hs, rfl, rfl, rfl⟩, fun h p hp => ?_⟩
    rcases mem_cacheSet hp with h1 | h2
    · rw [h1]
      exact hs
    · exact h p h2

/-- Witness for C3: after a successful YouTube request against an empty
cache, every stored value is a success response. -/
theorem cache_writes_only_success_witness :
    ((cachedApiVideo extEx [] 0
        (some "https://www.youtube.com/watch?v=dQw4w9WgXcQ")
        (some "youtube")).cache.all fun p => p.2.val.success) = true := by
  have h := (cache_writes_only_success extEx [] 0
    (some "https://www.youtube.com/watch?v=dQw4w9WgXcQ") (some "youtube")).2
    (by simp)
  simpa [List.all_eq_true] using h

/-- Claim C4 (amended): in the cached variant, if the first request for a
url was a cache miss that succeeded (HTTP 200), the handler stored the
response body under the key `video_ + url` (not under the raw request
URL) with expiry exactly `ttlMs` after insertion, and any second request
with the same url while the entry lives returns the byte-identical
response body, performs no extraction call and leaves the cache
unchanged. -/
theorem cache_second_request_identical (ext : Extern) (cache : Cache)
    (now now2 : Nat) (urlQ platformQ : Option String)
    (hmiss : cacheGet cache ("video_" ++ urlQ.getD "") now = none)
    (hok : (cachedApiVideo ext cache now urlQ platformQ).status = 200)
    (hin : now2 ≤ now + ttlMs) :
    ∃ v : Body,
      (cachedApiVideo ext cache now urlQ platformQ).body = .json v ∧
      (cachedApiVideo ext cache now urlQ platformQ).cache =
        cacheSet cache ("video_" ++ urlQ.getD "") v now ∧
      (∀ t, cacheGet (cachedApiVideo ext cache now urlQ platformQ).cache
          ("video_" ++ urlQ.getD "") t =
          if t ≤ now + ttlMs then some v else none) ∧
      cachedApiVideo ext (cachedApiVideo ext cache now urlQ platformQ).cache
          now2 urlQ platformQ =
        ⟨200, .json v,
          (cachedApiVideo ext cache now urlQ platformQ).cache, 0⟩ := by
  obtain ⟨hu, hp⟩ := params_nonempty_of_status200 hok
  rcases cachedApiVideo_cases ext cache now urlQ platformQ with
    ⟨v, hv, heq⟩ | ⟨h400, hc⟩ | ⟨v, hs, heq⟩
  · rw [hv] at hmiss
    cases hmiss
  · rw [hok] at h400
    cases h400
  · refine ⟨v, ?_, ?_, ?_, ?_⟩
    · rw [heq]
    · rw [heq]
    · intro t
      rw [heq]
      exact cacheGet_cacheSet_self cache _ v now t
    · rw [heq]
      exact cachedApiVideo_hit_eval ext _ now2 urlQ platformQ v hu hp
        (by rw [cacheGet_cacheSet_self]; simp [hin])

/-- Witness for C4 (amended): the second identical YouTube request, one
second after the first, is served verbatim from the cache. -/
theorem cache_second_request_identical_witness :
    cachedApiVideo extEx
        (cachedApiVideo extEx [] 0
          (some "https://www.youtube.com/watch?v=dQw4w9WgXcQ")
          (some "youtube")).cache 1000
        (some "https://www.youtube.com/watch?v=dQw4w9WgXcQ")
        (some "youtube") =
      ⟨200,
        (cachedApiVideo extEx [] 0
          (some "https://www.youtube.com/watch?v=dQw4w9WgXcQ")
          (some "youtube")).body,
        (cachedApiVideo extEx [] 0
          (some "https://www.youtube.com/watch?v=dQw4w9WgXcQ")
          (some "youtube")).cache, 0⟩ := by
  obtain ⟨v, hb, hc, ht, hsecond⟩ := cache_second_request_identical extEx [] 0
    1000 (some "https://www.youtube.com/watch?v=dQw4w9WgXcQ")
    (some "youtube") (by decide) (by decide) (by decide)
  rw [hsecond, ← hb]

/-- Counterexample to claim C4's "keyed by the request URL" clause: after
a successful first request the new cache serves nothing under the raw
request URL — the entry sits under `video_ + url`. -/
theorem cache_key_not_raw_url_counterexample :
    (cachedApiVideo extEx [] 0
      (some "https://www.youtube.com/watch?v=dQw4w9WgXcQ")
      (some "youtube")).status = 200 ∧
    cacheGet (cachedApiVideo extEx [] 0
        (some "https://www.youtube.com/watch?v=dQw4w9WgXcQ")
        (some "youtube")).cache
      "https://www.youtube.com/watch?v=dQw4w9WgXcQ" 0 = none ∧
    (cacheGet (cachedApiVideo extEx [] 0
        (some "https://www.youtube.com/watch?v=dQw4w9WgXcQ")
        (some "youtube")).cache
      "video_https://www.youtube.com/watch?v=dQw4w9WgXcQ" 0).isSome = true := by
  decide

/-- Claim C1 evaluated on the code: on a successful YouTube extraction
the simple variant's `download_url` is the chosen format's URL string,
but the cached variant's `download_url` is the download stream object
returned by `ytdl(url, {format, requestOptions})` — not a URL string —
contradicting the claim and the file's own swagger schema, which types
`download_url` as a string holding the direct download URL.  The
title/thumbnail/duration/author fields are populated in both. -/
theorem cached_download_url_is_stream_not_string :
    simpleApiVideo extEx (some "https://www.youtube.com/watch?v=dQw4w9WgXcQ") =
      ⟨200, .json (ytVideoInfo ytInfoEx "https://img.example/thumb.jpg"
        (.urlStr "https://video.example/dl.mp4"))⟩ ∧
    cachedApiVideo extEx [] 0
        (some "https://www.youtube.com/watch?v=dQw4w9WgXcQ") (some "youtube") =
      ⟨200, .json (ytVideoInfo ytInfoEx "https://img.example/thumb.jpg"
          (.streamObj "https://video.example/dl.mp4")),
        cacheSet [] "video_https://www.youtube.com/watch?v=dQw4w9WgXcQ"
          (ytVideoInfo ytInfoEx "https://img.example/thumb.jpg"
            (.streamObj "https://video.example/dl.mp4")) 0, 1⟩ ∧
    (ytVideoInfo ytInfoEx "https://img.example/thumb.jpg"
        (.streamObj "https://video.example/dl.mp4")).download_url ≠
      some (.urlStr "https://video.example/dl.mp4") := by
  decide

/-- Claim C2 evaluated on the code: an upstream YouTube extraction
failure whose message contains `Sign in to confirm` is answered by the
cached variant's route handler with HTTP 400 and the handler's generic
prefixed message — not 403 — because the route's inner catch returns
directly; the terminal error middleware, which does map exactly this
signature to 403 with the age-verification message, never sees the
error. -/
theorem ageRestricted_yields_400_not_403 :
    cachedApiVideo extAge [] 0
        (some "https://www.youtube.com/watch?v=dQw4w9WgXcQ") (some "youtube") =
      ⟨400, errJ "Unable to process YouTube video. Sign in to confirm your age",
        [], 1⟩ ∧
    errorMiddleware false "Sign in to confirm your age" =
      ⟨403, errJ "This video requires age verification. Please try another video."⟩ ∧
    (400 : Nat) ≠ 403 := by
  decide

/-- Claim C9 evaluated on the code: in the simple variant the
security-header middleware is registered after the terminal 404 handler
(which answers every request that reaches it), so it is never executed —
the root route, the `/api/video` route and the 404 catch-all all respond
with no `X-Content-Type-Options` / `X-XSS-Protection` header.  In the
cached variant the header middleware runs before the routes and stamps
both headers on every response. -/
theorem simple_variant_responses_lack_security_headers :
    simpleApp extEx true ⟨"/", none, none, "1.2.3.4"⟩ =
      some ⟨200, .json rootBodySimple, []⟩ ∧
    simpleApp extEx true ⟨"/nonexistent", none, none, "1.2.3.4"⟩ =
      some ⟨404, notFoundBody, []⟩ ∧
    simpleApp extEx true
        ⟨"/api/video", some "https://www.instagram.com/p/abc/", none,
          "1.2.3.4"⟩ =
      some ⟨200, .json (igVideoInfo "https://ig.example/media.mp4" "video"),
        []⟩ ∧
    (([] : List (String × String)).lookup "X-Content-Type-Options" = none) ∧
    ((cachedApp extEx ⟨[], []⟩ 0 ⟨"/ping", none, none, "1.2.3.4"⟩).1 =
      ⟨200, .text "pong", cachedSecurityHeaders⟩) ∧
    (cachedSecurityHeaders.lookup "X-Content-Type-Options" = some "nosniff") ∧
    (cachedSecurityHeaders.lookup "X-XSS-Protection" = some "1; mode=block") := by
  decide

/-- Looking up the address just written in the limiter store. -/
theorem lookup_rlSet_self (rl : RlState) (addr : String) (e : RlEntry) :
    (rlSet rl addr e).lookup addr = some e := by
  simp [rlSet, List.lookup]

/-- A limiter-store write for one address is invisible to every other. -/
theorem lookup_rlSet_other (rl : RlState) {a b : String} (e : RlEntry)
    (h : b ≠ a) :
    (rlSet rl a e).lookup b = rl.lookup b := by
  have hba : (b == a) = false := beq_eq_false_iff_ne.mpr h
  simp [rlSet, List.lookup, hba]

/-- One `/api/video` request from address `a` inside a live window bumps
`a`'s counter by one and keeps the window start (allowed or denied). -/
theorem cachedApp_rl_step (ext : Extern) (st : AppState) (now : Nat)
    (req : Req) (a : String) (k t0 : Nat)
    (ha : req.addr = a) (hpath : req.path = "/api/video")
    (hentry : st.rl.lookup a = some ⟨k, t0⟩) (hnow : now < t0 + windowMs) :
    ((cachedApp ext st now req).2.1).rl = rlSet st.rl a ⟨k + 1, t0⟩ := by
  have h1 : limiterHit st.rl a now =
      (decide (k + 1 ≤ rlMax), rlSet st.rl a ⟨k + 1, t0⟩) := by
    simp [limiterHit, hentry, hnow]
  simp only [cachedApp, hpath, ha, h1]
  rw [if_neg (by decide : ¬ ("/api/video" : String) = "/ping"),
    if_neg (by decide : ¬ ("/api/video" : String) = "/")]
  rw [if_pos trivial]
  split <;> rfl

/-- The first `/api/video` request from a fresh address opens a window at
the current time with count one. -/
theorem cachedApp_rl_step_fresh (ext : Extern) (st : AppState) (now : Nat)
    (req : Req) (a : String)
    (ha : req.addr = a) (hpath : req.path = "/api/video")
    (hentry : st.rl.lookup a = none) :
    ((cachedApp ext st now req).2.1).rl = rlSet st.rl a ⟨1, now⟩ := by
  have h1 : limiterHit st.rl a now = (true, rlSet st.rl a ⟨1, now⟩) := by
    simp [limiterHit, hentry]
  simp [cachedApp, hpath, ha, h1]

/-- Folding a trace of same-address `/api/video` requests, all inside the
address's live window, adds the trace length to its counter and leaves
every other address's limiter entry untouched. -/
theorem runReqs_rl_count (ext : Extern) (trace : List (Nat × Req))
    (a : String) (t0 : Nat) :
    ∀ (st : AppState) (k : Nat),
      st.rl.lookup a = some ⟨k, t0⟩ →
      (∀ p ∈ trace, (p.2).addr = a ∧ (p.2).path = "/api/video" ∧
        p.1 < t0 + windowMs) →
      (runReqs ext st trace).rl.lookup a = some ⟨k + trace.length, t0⟩ ∧
      ∀ b, b ≠ a → (runReqs ext st trace).rl.lookup b = st.rl.lookup b := by
  induction trace with
  | nil =>
    intro st k h _
    exact ⟨by simpa using h, fun b _ => rfl⟩
  | cons p rest ih =>
    obtain ⟨t, r⟩ := p
    intro st k hentry hall
    obtain ⟨ha, hpath, ht⟩ := hall (t, r) (List.mem_cons_self _ _)
    have hrl : ((cachedApp ext st t r).2.1).rl = rlSet st.rl a ⟨k + 1, t0⟩ :=
      cachedApp_rl_step ext st t r a k t0 ha hpath hentry ht
    have hmid : ((cachedApp ext st t r).2.1).rl.lookup a = some ⟨k + 1, t0⟩ := by
      rw [hrl]
      exact lookup_rlSet_self _ _ _
    have hrest := ih ((cachedApp ext st t r).2.1) (k + 1) hmid
      (fun q hq => hall q (List.mem_cons_of_mem _ hq))
    constructor
    · simp only [runReqs, List.length_cons]
      rw [hrest.1]
      congr 2
      omega
    · intro b hb
      simp only [runReqs]
      rw [hrest.2 b hb, hrl, lookup_rlSet_other _ _ hb]

/-- Once an address's in-window counter is at the cap, a further
`/api/video` request from it inside the window is denied with the fixed
rate-limit body: no extraction, cache untouched, counter bumped. -/
theorem cachedApp_denies (ext : Extern) (st : AppState) (t2 : Nat)
    (r2 : Req) (a : String) (c t0 : Nat)
    (ha : r2.addr = a) (hpath : r2.path = "/api/video")
    (hentry : st.rl.lookup a = some ⟨c, t0⟩) (hc : 100 ≤ c)
    (ht : t2 < t0 + windowMs) :
    cachedApp ext st t2 r2 =
      (⟨429, rateLimitBody, cachedSecurityHeaders⟩,
        ⟨st.cache, rlSet st.rl a ⟨c + 1, t0⟩⟩, 0) := by
  have hd : ¬ (c + 1 ≤ rlMax) := by
    simp only [rlMax]
    omega
  have h1 : limiterHit st.rl a t2 = (false, rlSet st.rl a ⟨c + 1, t0⟩) := by
    simp [limiterHit, hentry, ht, decide_eq_false hd]
  simp [cachedApp, hpath, ha, h1]

/-- The `/ping` route bypasses the rate limiter entirely: fixed `pong`
text, no state change, no extraction, from any state. -/
theorem cachedApp_ping (ext : Extern) (st : AppState) (t : Nat) (r : Req)
    (h : r.path = "/ping") :
    cachedApp ext st t r = (⟨200, .text "pong", cachedSecurityHeaders⟩, st, 0) := by
  simp [cachedApp, h]

/-- Claim C8: after more than 100 `/api/video` requests from one client
address within one rate-limit window (one opening request plus a trace of
at least 100 more inside the window), the address's counter exceeds the
cap, and every subsequent in-window `/api/video` request from that
address is denied with the fixed rate-limit error body and keeps the
counter above the cap (so denials persist), while other addresses'
limiter entries are untouched by the whole episode and `/ping` requests
are answered `pong` from any state with no state change. -/
theorem rate_limiter_denies_after_cap (ext : Extern) (st0 : AppState)
    (a : String) (t0 : Nat) (r0 : Req) (trace : List (Nat × Req))
    (hfresh : st0.rl.lookup a = none)
    (ha0 : r0.addr = a) (hp0 : r0.path = "/api/video")
    (hall : ∀ p ∈ trace, p.2.addr = a ∧ p.2.path = "/api/video" ∧
      p.1 < t0 + windowMs)
    (hlen : 100 ≤ trace.length) :
    ((runReqs ext st0 ((t0, r0) :: trace)).rl.lookup a =
        some ⟨1 + trace.length, t0⟩ ∧ 100 < 1 + trace.length) ∧
    (∀ (st : AppState) (c : Nat), st.rl.lookup a = some ⟨c, t0⟩ → 100 ≤ c →
      ∀ (t2 : Nat) (r2 : Req), r2.addr = a → r2.path = "/api/video" →
        t2 < t0 + windowMs →
        cachedApp ext st t2 r2 =
          (⟨429, rateLimitBody, cachedSecurityHeaders⟩,
            ⟨st.cache, rlSet st.rl a ⟨c + 1, t0⟩⟩, 0) ∧
        (rlSet st.rl a ⟨c + 1, t0⟩).lookup a = some ⟨c + 1, t0⟩ ∧
        100 ≤ c + 1 ∧
        ∀ b, b ≠ a → (rlSet st.rl a ⟨c + 1, t0⟩).lookup b = st.rl.lookup b) ∧
    (∀ b, b ≠ a →
      (runReqs ext st0 ((t0, r0) :: trace)).rl.lookup b = st0.rl.lookup b) ∧
    (∀ (tp : Nat) (rp : Req), rp.path = "/ping" →
      ∀ st : AppState, cachedApp ext st tp rp =
        (⟨200, .text "pong", cachedSecurityHeaders⟩, st, 0)) := by
  have hstep : ((cachedApp ext st0 t0 r0).2.1).rl = rlSet st0.rl a ⟨1, t0⟩ :=
    cachedApp_rl_step_fresh ext st0 t0 r0 a ha0 hp0 hfresh
  have hmid : ((cachedApp ext st0 t0 r0).2.1).rl.lookup a = some ⟨1, t0⟩ := by
    rw [hstep]
    exact lookup_rlSet_self _ _ _
  have hfold := runReqs_rl_count ext trace a t0 ((cachedApp ext st0 t0 r0).2.1)
    1 hmid hall
  refine ⟨⟨?_, by omega⟩, ?_, ?_, ?_⟩
  · simp only [runReqs]
    exact hfold.1
  · intro st c hent hc t2 r2 ha2 hp2 ht2
    exact ⟨cachedApp_denies ext st t2 r2 a c t0 ha2 hp2 hent hc ht2,
      lookup_rlSet_self _ _ _, by omega,
      fun b hb => lookup_rlSet_other _ _ hb⟩
  · intro b hb
    simp only [runReqs]
    rw [hfold.2 b hb, hstep, lookup_rlSet_other _ _ hb]
  · intro tp rp hping st
    exact cachedApp_ping ext st tp rp hping

/-- Witness for C8: after 101 concrete requests from address `1.2.3.4`,
the 102nd is denied with the rate-limit body. -/
theorem rate_limiter_denies_after_cap_witness :
    cachedApp extEx st100 5 reqIg =
      (⟨429, rateLimitBody, cachedSecurityHeaders⟩,
        ⟨st100.cache, rlSet st100.rl "1.2.3.4"
          ⟨1 + trace100.length + 1, 0⟩⟩, 0) := by
  have h := rate_limiter_denies_after_cap extEx ⟨[], []⟩ "1.2.3.4" 0 reqIg
    trace100 rfl rfl rfl
    (by
      intro p hp
      rw [List.eq_of_mem_replicate hp]
      exact ⟨rfl, rfl, by decide⟩)
    (by decide)
  exact (h.2.1 st100 (1 + trace100.length) h.1.1 (by decide) 5 reqIg rfl rfl
    (by decide)).1

end ISave
